import Mathlib

/-!
Shallow embedding of the JWT token-lifecycle manager of the
Net-Http-Restful-API repository (pkg/jwt/manager.go, the Redis-backed
token repository internal/repository/redis, and the Logout /
RevokeAllSessions entry points of internal/service/auth_service.go).

Time is modelled as `Int` (unix seconds); durations are `Int` so that a
non-positive TTL is representable.  Randomized inputs (uuid.New()) are
passed as explicit string parameters.  Fallible collaborator calls
(RSA signing, Redis commands) are modelled with an explicit `Faults`
record saying which primitive calls fail during the run; the happy path
is `noFaults`.  Stateful operations thread the `Store` explicitly and,
where the Go code both mutates Redis and returns an error, the model
returns the pair of the `Except` result and the post-state.
-/

namespace JwtModel

/-- TokenTypeAccess represents the access token type (manager.go const). -/
def TokenTypeAccess : String := "access"

/-- TokenTypeRefresh represents the refresh token type (manager.go const). -/
def TokenTypeRefresh : String := "refresh"

/-- Clock-skew leeway used by ValidateToken: jwt.WithLeeway(30*time.Second). -/
def leeway : Int := 30

/-- Claims of pkg/jwt/manager.go: custom fields plus the embedded
jwt.RegisteredClaims fields.  Optional registered time claims are
`Option Int` because the Go fields are nullable pointers. -/
structure Claims where
  userID : String
  role : String
  tokenType : String
  tokenFamily : String
  jti : String
  subject : String
  issuer : String
  audience : List String
  issuedAt : Option Int
  expiresAt : Option Int
  notBefore : Option Int
deriving DecidableEq, Repr

/-- A compact signed token: the RS256-signed serialization of a claim
set.  `sigKey` records which private key produced the signature; a
verifier accepts it exactly when its configured public key is the
matching half of that pair. -/
structure SignedToken where
  alg : String
  claims : Claims
  sigKey : Nat
deriving DecidableEq, Repr

/-- TokenPair of manager.go. -/
structure TokenPair where
  accessToken : SignedToken
  refreshToken : SignedToken
  accessJTI : String
  refreshJTI : String
  tokenFamily : String
  expiresAt : Int
deriving DecidableEq, Repr

/-- JWTService configuration (keys, TTLs, issuer, audience). -/
structure JWTService where
  privateKey : Nat
  publicKey : Nat
  accessTokenTTL : Int
  refreshTokenTTL : Int
  issuer : String
  audience : String
deriving DecidableEq, Repr

/-- The Redis-backed TokenRepository state: blacklist entries
(jti ↦ absolute expiry), family pointers ((user, family) ↦ current jti
and absolute expiry), and per-user session sorted sets
(user ↦ list of (family, score)).  A key is live at time `t` when its
recorded expiry is strictly greater than `t`. -/
structure Store where
  blacklist : List (String × Int)
  families : List ((String × String) × (String × Int))
  sessions : List (String × List (String × Int))
deriving DecidableEq, Repr

/-- Which primitive collaborator calls fail during the modelled run. -/
structure Faults where
  signAccessFails : Bool
  signRefreshFails : Bool
  blacklistFails : Bool
  isBlacklistedFails : Bool
  setFamilyFails : Bool
  getFamilyFails : Bool
  trackFails : Bool
  zrangeFails : Bool
  delFails : Bool
deriving DecidableEq, Repr

/-- The happy path: every collaborator call succeeds. -/
def noFaults : Faults :=
  ⟨false, false, false, false, false, false, false, false, false⟩

/-- A store (Redis) error, opaque to the manager. -/
inductive StoreErr where
  | err
deriving DecidableEq, Repr

/-- Association-list read: first binding of the key. -/
def alistGet {κ α : Type} [DecidableEq κ] : List (κ × α) → κ → Option α
  | [], _ => none
  | (k, v) :: rest, key => if k = key then some v else alistGet rest key

/-- Drop every binding of a key from an association list. -/
def alistDel {κ α : Type} [DecidableEq κ] : List (κ × α) → κ → List (κ × α)
  | [], _ => []
  | (k, v) :: rest, key =>
    if k = key then alistDel rest key else (k, v) :: alistDel rest key

/-- Association-list overwrite (Redis SET / ZADD semantics). -/
def alistSet {κ α : Type} [DecidableEq κ] (l : List (κ × α)) (key : κ) (v : α) :
    List (κ × α) :=
  (key, v) :: alistDel l key

/-- Whether a blacklist entry for `jti` is live at time `now`. -/
def Store.blLive (st : Store) (now : Int) (jti : String) : Bool :=
  match alistGet st.blacklist jti with
  | some e => now < e
  | none => false

/-- The family pointer visible at time `now` ("" when absent/expired),
mirroring GetTokenFamily's translation of redis.Nil to "". -/
def Store.famGet (st : Store) (now : Int) (user family : String) : String :=
  match alistGet st.families (user, family) with
  | some (jti, e) => if now < e then jti else ""
  | none => ""

/-- BlacklistToken (redis/token_repository): no-op when ttl <= 0,
otherwise SET blacklistPrefix+jti with expiry ttl. -/
def BlacklistToken (f : Faults) (st : Store) (now : Int) (jti : String)
    (ttl : Int) : Except StoreErr Store :=
  if f.blacklistFails then .error .err
  else if ttl ≤ 0 then .ok st
  else .ok { st with blacklist := alistSet st.blacklist jti (now + ttl) }

/-- IsTokenBlacklisted: EXISTS on the blacklist key. -/
def IsTokenBlacklisted (f : Faults) (st : Store) (now : Int) (jti : String) :
    Except StoreErr Bool :=
  if f.isBlacklistedFails then .error .err
  else .ok (st.blLive now jti)

/-- SetTokenFamily: SET tokenFamilyPrefix+user:family to jti with ttl. -/
def SetTokenFamily (f : Faults) (st : Store) (now : Int)
    (user family jti : String) (ttl : Int) : Except StoreErr Store :=
  if f.setFamilyFails then .error .err
  else .ok { st with families := alistSet st.families (user, family) (jti, now + ttl) }

/-- GetTokenFamily: GET on the family key; redis.Nil becomes "". -/
def GetTokenFamily (f : Faults) (st : Store) (now : Int) (user family : String) :
    Except StoreErr String :=
  if f.getFamilyFails then .error .err
  else .ok (st.famGet now user family)

/-- TrackUserSession: ZADD family into the user's session set with score
now + ttl.  The session key itself carries no TTL in the source. -/
def TrackUserSession (f : Faults) (st : Store) (now : Int)
    (user family : String) (ttl : Int) : Except StoreErr Store :=
  if f.trackFails then .error .err
  else
    let z := (alistGet st.sessions user).getD []
    .ok { st with sessions := alistSet st.sessions user (alistSet z family (now + ttl)) }

/-- RevokeAllUserSessions: ZRANGE the user's session set (its error is
propagated), DEL each family key and the session key (those Del results
are discarded in the source, so a failing DEL is ignored and simply
leaves the keys in place). -/
def RevokeAllUserSessions (f : Faults) (st : Store) (user : String) :
    Except StoreErr Store :=
  if f.zrangeFails then .error .err
  else
    let families := ((alistGet st.sessions user).getD []).map Prod.fst
    let st1 := if f.delFails then st else
      { st with families :=
          families.foldl (fun acc fam => alistDel acc (user, fam)) st.families }
    let st2 := if f.delFails then st1 else
      { st1 with sessions := alistDel st1.sessions user }
    .ok st2

/-- Errors surfaced by the JWTService manager methods. -/
inductive ParseErr where
  | unexpectedMethod
  | signatureInvalid
  | expMissing
  | expired
  | iatInFuture
  | nbfInFuture
  | issuerMismatch
  | audienceMismatch
deriving DecidableEq, Repr

/-- Error taxonomy of the manager: token parse failures ("failed to
parse token"), "invalid token type", propagated repository errors,
"token has been revoked", "refresh token reuse detected, all sessions
revoked", and signing failures. -/
inductive JwtErr where
  | parseFailed (e : ParseErr)
  | invalidTokenType
  | store (e : StoreErr)
  | tokenRevoked
  | tokenReuseDetected
  | signFailed
deriving DecidableEq, Repr

/-- Is the embedded issued-at acceptable at `now` (jwt.WithIssuedAt with
leeway: an absent iat passes, a present one must not lie in the future
beyond the leeway)? -/
def iatOk (c : Claims) (now : Int) : Bool :=
  match c.issuedAt with
  | none => true
  | some i => i - leeway ≤ now

/-- Is the embedded not-before acceptable at `now` (always checked by
jwt/v5 when present, with leeway)? -/
def nbfOk (c : Claims) (now : Int) : Bool :=
  match c.notBefore with
  | none => true
  | some b => b - leeway ≤ now

/-- signToken: sign the claims with the service's private key using
RS256.  `fails` models an error from SignedString. -/
def signToken (s : JWTService) (fails : Bool) (c : Claims) :
    Except JwtErr SignedToken :=
  if fails then .error .signFailed
  else .ok { alg := "RS256", claims := c, sigKey := s.privateKey }

/-- ValidateToken of manager.go: jwt.ParseWithClaims with a keyfunc
enforcing RS256, jwt.WithExpirationRequired, WithIssuedAt, WithIssuer,
WithAudience, WithValidMethods(RS256) and a 30s leeway.  Success returns
exactly the embedded claim set. -/
def ValidateToken (s : JWTService) (now : Int) (tok : SignedToken) :
    Except JwtErr Claims :=
  if tok.alg ≠ "RS256" then .error (.parseFailed .unexpectedMethod)
  else if tok.sigKey ≠ s.publicKey then .error (.parseFailed .signatureInvalid)
  else
    match tok.claims.expiresAt with
    | none => .error (.parseFailed .expMissing)
    | some e =>
      if ¬ now < e + leeway then .error (.parseFailed .expired)
      else if ¬ iatOk tok.claims now then .error (.parseFailed .iatInFuture)
      else if ¬ nbfOk tok.claims now then .error (.parseFailed .nbfInFuture)
      else if tok.claims.issuer ≠ s.issuer then .error (.parseFailed .issuerMismatch)
      else if ¬ tok.claims.audience.contains s.audience then
        .error (.parseFailed .audienceMismatch)
      else .ok tok.claims

/-- The access-token claim set built by generateTokenPairWithFamily:
type access, no family, TTL accessTokenTTL, nbf = iat = now. -/
def mkAccessClaims (s : JWTService) (now : Int) (userID role accessJTI : String) :
    Claims :=
  { userID := userID, role := role, tokenType := TokenTypeAccess,
    tokenFamily := "", jti := accessJTI, subject := userID,
    issuer := s.issuer, audience := [s.audience], issuedAt := some now,
    expiresAt := some (now + s.accessTokenTTL), notBefore := some now }

/-- The refresh-token claim set built by generateTokenPairWithFamily:
type refresh, the given family, TTL refreshTokenTTL, nbf = iat = now. -/
def mkRefreshClaims (s : JWTService) (now : Int)
    (userID role tokenFamily refreshJTI : String) : Claims :=
  { userID := userID, role := role, tokenType := TokenTypeRefresh,
    tokenFamily := tokenFamily, jti := refreshJTI, subject := userID,
    issuer := s.issuer, audience := [s.audience], issuedAt := some now,
    expiresAt := some (now + s.refreshTokenTTL), notBefore := some now }

/-- generateTokenPairWithFamily: mint an access token (type access, no
family) and a refresh token (type refresh, given family), store the
refresh JTI as the family's current pointer, track the session, return
the pair.  The post-state is returned alongside the result because a
late failure leaves the earlier Redis writes in place. -/
def generateTokenPairWithFamily (s : JWTService) (f : Faults) (st : Store)
    (now : Int) (userID role tokenFamily accessJTI refreshJTI : String) :
    Except JwtErr TokenPair × Store :=
  match signToken s f.signAccessFails (mkAccessClaims s now userID role accessJTI) with
  | .error e => (.error e, st)
  | .ok accessToken =>
    match signToken s f.signRefreshFails
        (mkRefreshClaims s now userID role tokenFamily refreshJTI) with
    | .error e => (.error e, st)
    | .ok refreshToken =>
      match SetTokenFamily f st now userID tokenFamily refreshJTI s.refreshTokenTTL with
      | .error e => (.error (.store e), st)
      | .ok st1 =>
        match TrackUserSession f st1 now userID tokenFamily s.refreshTokenTTL with
        | .error e => (.error (.store e), st1)
        | .ok st2 =>
          (.ok { accessToken := accessToken, refreshToken := refreshToken,
                 accessJTI := accessJTI, refreshJTI := refreshJTI,
                 tokenFamily := tokenFamily,
                 expiresAt := now + s.accessTokenTTL }, st2)

/-- GenerateTokenPair: issue with a freshly generated family identifier
(uuid.New().String(), passed here as the `tokenFamily` parameter). -/
def GenerateTokenPair (s : JWTService) (f : Faults) (st : Store) (now : Int)
    (userID role tokenFamily accessJTI refreshJTI : String) :
    Except JwtErr TokenPair × Store :=
  generateTokenPairWithFamily s f st now userID role tokenFamily accessJTI refreshJTI

/-- RefreshTokens of manager.go: validate, require type refresh, reject
blacklisted JTIs, detect reuse against the family pointer (revoking all
sessions on detection), otherwise blacklist the presented JTI for its
remaining lifetime and mint a replacement pair in the same family. -/
def RefreshTokens (s : JWTService) (f : Faults) (st : Store) (now : Int)
    (tok : SignedToken) (newAccessJTI newRefreshJTI : String) :
    Except JwtErr TokenPair × Store :=
  match ValidateToken s now tok with
  | .error e => (.error e, st)
  | .ok claims =>
    if claims.tokenType ≠ TokenTypeRefresh then (.error .invalidTokenType, st)
    else
      match IsTokenBlacklisted f st now claims.jti with
      | .error e => (.error (.store e), st)
      | .ok true => (.error .tokenRevoked, st)
      | .ok false =>
        match GetTokenFamily f st now claims.userID claims.tokenFamily with
        | .error e => (.error (.store e), st)
        | .ok currentJTI =>
          if currentJTI ≠ "" ∧ currentJTI ≠ claims.jti then
            match RevokeAllUserSessions f st claims.userID with
            | .error e => (.error (.store e), st)
            | .ok st1 => (.error .tokenReuseDetected, st1)
          else
            match BlacklistToken f st now claims.jti ((claims.expiresAt.getD now) - now) with
            | .error e => (.error (.store e), st)
            | .ok st1 =>
              generateTokenPairWithFamily s f st1 now claims.userID claims.role
                claims.tokenFamily newAccessJTI newRefreshJTI

/-- ValidateAccessToken: validate, require type access, reject
blacklisted JTIs.  Reads only; the store is unchanged. -/
def ValidateAccessToken (s : JWTService) (f : Faults) (st : Store) (now : Int)
    (tok : SignedToken) : Except JwtErr Claims :=
  match ValidateToken s now tok with
  | .error e => .error e
  | .ok claims =>
    if claims.tokenType ≠ TokenTypeAccess then .error .invalidTokenType
    else
      match IsTokenBlacklisted f st now claims.jti with
      | .error e => .error (.store e)
      | .ok true => .error .tokenRevoked
      | .ok false => .ok claims

/-- Errors of the auth service layer (apperror wrappers). -/
inductive AuthErr where
  | internal
  | invalidToken
deriving DecidableEq, Repr

/-- Logout of internal/service/auth_service.go: blacklist the access JTI
for its remaining TTL; when a refresh token string is supplied, validate
it and blacklist its JTI for its remaining TTL as well. -/
def Logout (s : JWTService) (f : Faults) (st : Store) (now : Int)
    (accessJTI : String) (accessExp : Int) (refreshToken : Option SignedToken) :
    Except AuthErr Unit × Store :=
  match BlacklistToken f st now accessJTI (accessExp - now) with
  | .error _ => (.error .internal, st)
  | .ok st1 =>
    match refreshToken with
    | none => (.ok (), st1)
    | some tok =>
      match ValidateToken s now tok with
      | .error _ => (.error .invalidToken, st1)
      | .ok rc =>
        match BlacklistToken f st1 now rc.jti ((rc.expiresAt.getD now) - now) with
        | .error _ => (.error .internal, st1)
        | .ok st2 => (.ok (), st2)

/-- RevokeAllSessions of auth_service.go: pass-through to the
repository's RevokeAllUserSessions, wrapping store errors. -/
def RevokeAllSessions (f : Faults) (st : Store) (user : String) :
    Except AuthErr Unit × Store :=
  match RevokeAllUserSessions f st user with
  | .error _ => (.error .internal, st)
  | .ok st1 => (.ok (), st1)

/-- The token pair minted by a fault-free generateTokenPairWithFamily. -/
def mintedPair (s : JWTService) (now : Int) (u r fam aj rj : String) : TokenPair :=
  { accessToken := ⟨"RS256", mkAccessClaims s now u r aj, s.privateKey⟩,
    refreshToken := ⟨"RS256", mkRefreshClaims s now u r fam rj, s.privateKey⟩,
    accessJTI := aj, refreshJTI := rj, tokenFamily := fam,
    expiresAt := now + s.accessTokenTTL }

/-- The store updates performed by a fault-free
generateTokenPairWithFamily: family pointer set and session tracked. -/
def mintStore (s : JWTService) (st : Store) (now : Int) (u fam rj : String) :
    Store :=
  { st with
    families := alistSet st.families (u, fam) (rj, now + s.refreshTokenTTL),
    sessions := alistSet st.sessions u
      (alistSet ((alistGet st.sessions u).getD []) fam (now + s.refreshTokenTTL)) }

/-- The store update performed by a fault-free BlacklistToken. -/
def blacklistUpd (st : Store) (now : Int) (jti : String) (ttl : Int) : Store :=
  if ttl ≤ 0 then st
  else { st with blacklist := alistSet st.blacklist jti (now + ttl) }

/-- The store update performed by a fault-free RevokeAllUserSessions:
every family pointer listed in the user's session set is deleted and the
session set itself is cleared. -/
def revokeAllPure (st : Store) (user : String) : Store :=
  { st with
    families := (((alistGet st.sessions user).getD []).map Prod.fst).foldl
      (fun acc fam => alistDel acc (user, fam)) st.families,
    sessions := alistDel st.sessions user }

/-- The tokens minted by the manager: the access or refresh half of a
pair returned by GenerateTokenPair — whose family identifier is a fresh
uuid string, hence non-empty — or by RefreshTokens applied to a
previously minted token.  Arbitrary fault patterns and stores are
allowed; only successful calls mint tokens. -/
inductive Minted (s : JWTService) : SignedToken → Prop where
  | issue_access (f : Faults) (st st' : Store) (now : Int)
      (u r fam aj rj : String) (pair : TokenPair) (hfam : fam ≠ "")
      (hgen : GenerateTokenPair s f st now u r fam aj rj = (.ok pair, st')) :
      Minted s pair.accessToken
  | issue_refresh (f : Faults) (st st' : Store) (now : Int)
      (u r fam aj rj : String) (pair : TokenPair) (hfam : fam ≠ "")
      (hgen : GenerateTokenPair s f st now u r fam aj rj = (.ok pair, st')) :
      Minted s pair.refreshToken
  | refresh_access (f : Faults) (st st' : Store) (now : Int)
      (tok : SignedToken) (aj rj : String) (pair : TokenPair)
      (htok : Minted s tok)
      (href : RefreshTokens s f st now tok aj rj = (.ok pair, st')) :
      Minted s pair.accessToken
  | refresh_refresh (f : Faults) (st st' : Store) (now : Int)
      (tok : SignedToken) (aj rj : String) (pair : TokenPair)
      (htok : Minted s tok)
      (href : RefreshTokens s f st now tok aj rj = (.ok pair, st')) :
      Minted s pair.refreshToken

/-- A service configuration with a matching key pair, the README's TTLs
(15 minutes / 7 days) and issuer/audience, used for concrete scenarios. -/
def svcEx : JWTService :=
  { privateKey := 1, publicKey := 1, accessTokenTTL := 900,
    refreshTokenTTL := 604800, issuer := "myapp", audience := "user-myapp" }

/-- The empty store. -/
def stE : Store := ⟨[], [], []⟩

/-- The pair issued by `GenerateTokenPair svcEx noFaults stE 0 "u" "user"
"f1" "a1" "r1"`. -/
def pairEx : TokenPair := mintedPair svcEx 0 "u" "user" "f1" "a1" "r1"

/-- The store after that issuance. -/
def stEx : Store := mintStore svcEx stE 0 "u" "f1" "r1"

instance {ε α : Type} [DecidableEq ε] [DecidableEq α] :
    DecidableEq (Except ε α) := fun x y =>
  match x, y with
  | .error a, .error b =>
    if h : a = b then .isTrue (h ▸ rfl)
    else .isFalse (fun hh => h (by injection hh))
  | .error _, .ok _ => .isFalse (fun hh => Except.noConfusion hh)
  | .ok _, .error _ => .isFalse (fun hh => Except.noConfusion hh)
  | .ok a, .ok b =>
    if h : a = b then .isTrue (h ▸ rfl)
    else .isFalse (fun hh => h (by injection hh))

/-- A refresh token of family f1 for user u, signed by svcEx at time 0
with JTI r1 (as minted at issuance). -/
def tokC2 : SignedToken := ⟨"RS256", mkRefreshClaims svcEx 0 "u" "user" "f1" "r1", 1⟩

/-- A store whose family pointer for (u, f1) is r0 ≠ r1, as left behind
by a rotation that exchanged r1 for r0. -/
def stC2 : Store :=
  ⟨[], [(("u", "f1"), ("r0", 604800))], [("u", [("f1", 604800)])]⟩

/-- An access-token claim set minted by svcEx at time 0, used to probe
the verification window boundary: iat = 0, exp = 900. -/
def clC6 : Claims := mkAccessClaims svcEx 0 "u" "user" "j"

/-- The token signToken produces for clC6 under svcEx. -/
def tokC6 : SignedToken := ⟨"RS256", clC6, 1⟩

/-- The refresh token of pairEx (family f1, JTI r1, minted at 0). -/
def tokP1 : SignedToken := pairEx.refreshToken

/-- A fault pattern in which only the Redis DEL calls fail. -/
def faultsDel : Faults :=
  ⟨false, false, false, false, false, false, false, false, true⟩

/-- A fault pattern in which only TrackUserSession (the last store write
of a refresh) fails. -/
def faultsTrack : Faults :=
  ⟨false, false, false, false, false, false, true, false, false⟩

/-- The rotation triple produced by refreshing tokP1 on stEx at t = 10
with fresh JTIs a2/r2. -/
def c1Ref1 : Except JwtErr TokenPair × Store :=
  RefreshTokens svcEx noFaults stEx 10 tokP1 "a2" "r2"

/-- The refresh token of the pair returned by that rotation (family f1,
JTI r2, minted at 10). -/
def tokP2 : SignedToken := ⟨"RS256", mkRefreshClaims svcEx 10 "u" "user" "f1" "r2", 1⟩

/-- The pair returned by the first (successful) rotation in the C1
scenario. -/
def c1P2 : TokenPair := mintedPair svcEx 10 "u" "user" "f1" "a2" "r2"

/-- The store after that rotation: r1 blacklisted until its expiry, the
family pointer moved to r2. -/
def c1St2 : Store := mintStore svcEx (blacklistUpd stEx 10 "r1" 604790) 10 "u" "f1" "r2"

/-- The store after issuing a second pair (family f2, JTIs b1/s1) for
the same user on top of the first issuance. -/
def c3St : Store :=
  (GenerateTokenPair svcEx noFaults stEx 0 "u" "user" "f2" "b1" "s1").2

/-- The refresh token of the second pair (family f2, JTI s1). -/
def tokS1 : SignedToken := ⟨"RS256", mkRefreshClaims svcEx 0 "u" "user" "f2" "s1", 1⟩

/-- The result of RevokeAllSessions for the user holding both pairs. -/
def c3Rev : Except AuthErr Unit × Store := RevokeAllSessions noFaults c3St "u"

/-! Lemmas and claim theorems. -/

/-! Helper lemmas about the association-list store primitives. -/

lemma alistGet_set_self {κ α : Type} [DecidableEq κ] (l : List (κ × α))
    (k : κ) (v : α) : alistGet (alistSet l k v) k = some v := by
  simp [alistGet, alistSet]

lemma alistGet_del_ne {κ α : Type} [DecidableEq κ] (l : List (κ × α))
    (k k' : κ) (h : k ≠ k') :
    alistGet (alistDel l k) k' = alistGet l k' := by
  induction l with
  | nil => rfl
  | cons hd tl ih =>
    obtain ⟨a, b⟩ := hd
    have h' : ¬ k' = k := fun hh => h hh.symm
    by_cases hk : a = k
    · have hne : ¬ a = k' := by rw [hk]; exact h
      simp [alistDel, alistGet, hk, hne, ih, h]
    · by_cases hk' : a = k'
      · simp [alistDel, alistGet, hk, hk', h']
      · simp [alistDel, alistGet, hk, hk', ih]

lemma alistGet_del_self {κ α : Type} [DecidableEq κ] (l : List (κ × α))
    (k : κ) : alistGet (alistDel l k) k = none := by
  induction l with
  | nil => rfl
  | cons hd tl ih =>
    obtain ⟨a, b⟩ := hd
    by_cases hk : a = k
    · simp [alistDel, alistGet, hk, ih]
    · simp [alistDel, alistGet, hk, ih]

lemma alistGet_set_ne {κ α : Type} [DecidableEq κ] (l : List (κ × α))
    (k k' : κ) (v : α) (h : k ≠ k') :
    alistGet (alistSet l k v) k' = alistGet l k' := by
  simp only [alistSet, alistGet, if_neg h]
  exact alistGet_del_ne l k k' h

/-- ValidateToken succeeds, returning exactly the embedded claims, on a
token signed with the matching private key whose claims satisfy the
configured issuer/audience and the time-window checks. -/
lemma validateToken_ok_of (s : JWTService) (now : Int) (c : Claims) (e i : Int)
    (hkey : s.publicKey = s.privateKey)
    (hexp : c.expiresAt = some e) (hiat : c.issuedAt = some i)
    (hiss : c.issuer = s.issuer) (haud : c.audience.contains s.audience = true)
    (hlo : i - leeway ≤ now) (hhi : now < e + leeway)
    (hnbf : nbfOk c now = true) :
    ValidateToken s now ⟨"RS256", c, s.privateKey⟩ = .ok c := by
  have haud' : s.audience ∈ c.audience := by simpa using haud
  simp [ValidateToken, hkey, hexp, hhi, iatOk, hiat, hlo, hnbf, hiss, haud']

/-- ValidateToken only ever returns the token's own embedded claims. -/
lemma validateToken_ok_claims (s : JWTService) (now : Int) (tok : SignedToken)
    (c : Claims) (h : ValidateToken s now tok = .ok c) : c = tok.claims := by
  unfold ValidateToken at h
  repeat' split at h
  all_goals
    first
    | exact Except.noConfusion h
    | (injection h with h2; exact h2.symm)

lemma generate_noFaults (s : JWTService) (st : Store) (now : Int)
    (u r fam aj rj : String) :
    generateTokenPairWithFamily s noFaults st now u r fam aj rj =
      (.ok (mintedPair s now u r fam aj rj), mintStore s st now u fam rj) := rfl

lemma blacklistToken_noFaults (st : Store) (now : Int) (jti : String) (ttl : Int) :
    BlacklistToken noFaults st now jti ttl = .ok (blacklistUpd st now jti ttl) := by
  by_cases h : ttl ≤ 0 <;> simp [BlacklistToken, blacklistUpd, noFaults, h]

lemma revokeAll_noFaults (st : Store) (user : String) :
    RevokeAllUserSessions noFaults st user = .ok (revokeAllPure st user) := rfl

/-- Fault-free RefreshTokens of a valid, non-blacklisted refresh token
whose JTI agrees with the stored family pointer: the presented JTI is
blacklisted for its remaining lifetime and a pair in the same family is
minted. -/
lemma refreshTokens_rotate (s : JWTService) (st : Store) (now : Int)
    (tok : SignedToken) (aj rj : String) (claims : Claims)
    (hval : ValidateToken s now tok = .ok claims)
    (htype : claims.tokenType = TokenTypeRefresh)
    (hbl : st.blLive now claims.jti = false)
    (hcur : st.famGet now claims.userID claims.tokenFamily = claims.jti) :
    RefreshTokens s noFaults st now tok aj rj =
      (.ok (mintedPair s now claims.userID claims.role claims.tokenFamily aj rj),
       mintStore s
         (blacklistUpd st now claims.jti ((claims.expiresAt.getD now) - now))
         now claims.userID claims.tokenFamily rj) := by
  unfold RefreshTokens
  rw [hval]; dsimp only
  rw [if_neg (by simp [htype])]
  rw [show IsTokenBlacklisted noFaults st now claims.jti = .ok false by
    simp [IsTokenBlacklisted, noFaults, hbl]]
  dsimp only
  rw [show GetTokenFamily noFaults st now claims.userID claims.tokenFamily
      = .ok claims.jti by simp [GetTokenFamily, noFaults, hcur]]
  dsimp only
  rw [if_neg (by simp)]
  rw [blacklistToken_noFaults]
  dsimp only
  rw [generate_noFaults]

/-- RefreshTokens of a valid, non-blacklisted refresh token when the
stored family pointer is non-empty and different from the presented JTI:
provided the blacklist read, pointer read and session-set read succeed,
the call invokes RevokeAllUserSessions and fails with the reuse-detected
error, whatever the outcome of the cleanup deletions. -/
lemma refreshTokens_reuse (s : JWTService) (f : Faults) (st : Store) (now : Int)
    (tok : SignedToken) (aj rj : String) (claims : Claims) (cur : String)
    (hval : ValidateToken s now tok = .ok claims)
    (htype : claims.tokenType = TokenTypeRefresh)
    (hfb : f.isBlacklistedFails = false)
    (hbl : st.blLive now claims.jti = false)
    (hfg : f.getFamilyFails = false)
    (hcur : st.famGet now claims.userID claims.tokenFamily = cur)
    (hne : cur ≠ "") (hja : cur ≠ claims.jti)
    (hz : f.zrangeFails = false) :
    ∃ st', RevokeAllUserSessions f st claims.userID = .ok st' ∧
      RefreshTokens s f st now tok aj rj = (.error .tokenReuseDetected, st') := by
  unfold RefreshTokens
  rw [hval]; dsimp only
  rw [if_neg (by simp [htype])]
  rw [show IsTokenBlacklisted f st now claims.jti = .ok false by
    simp [IsTokenBlacklisted, hfb, hbl]]
  dsimp only
  rw [show GetTokenFamily f st now claims.userID claims.tokenFamily = .ok cur by
    simp [GetTokenFamily, hfg, hcur]]
  dsimp only
  rw [if_pos ⟨hne, hja⟩]
  have hrev : ∃ st', RevokeAllUserSessions f st claims.userID = .ok st' := by
    unfold RevokeAllUserSessions
    rw [if_neg (by simp [hz])]
    exact ⟨_, rfl⟩
  obtain ⟨st', hst'⟩ := hrev
  exact ⟨st', hst', by rw [hst']⟩

/-- Whatever the fault pattern, a successful generateTokenPairWithFamily
returns the pair of tokens it signed: an access token carrying no family
and a refresh token carrying the requested family. -/
lemma generate_ok_inv (s : JWTService) (f : Faults) (st : Store) (now : Int)
    (u r fam aj rj : String) (pair : TokenPair) (st' : Store)
    (h : generateTokenPairWithFamily s f st now u r fam aj rj = (.ok pair, st')) :
    pair.accessToken = ⟨"RS256", mkAccessClaims s now u r aj, s.privateKey⟩ ∧
    pair.refreshToken = ⟨"RS256", mkRefreshClaims s now u r fam rj, s.privateKey⟩ := by
  cases hA : f.signAccessFails <;> cases hB : f.signRefreshFails <;>
    cases hC : f.setFamilyFails <;> cases hD : f.trackFails <;>
      simp_all [generateTokenPairWithFamily, signToken, SetTokenFamily,
        TrackUserSession]
  exact ⟨h.1.symm ▸ rfl, h.1.symm ▸ rfl⟩

/-- A successful RefreshTokens call presented a refresh-typed token and
returns a pair whose tokens were minted at `now` for that token's user,
role and family. -/
lemma refresh_ok_inv (s : JWTService) (f : Faults) (st : Store) (now : Int)
    (tok : SignedToken) (aj rj : String) (pair : TokenPair) (st' : Store)
    (h : RefreshTokens s f st now tok aj rj = (.ok pair, st')) :
    tok.claims.tokenType = TokenTypeRefresh ∧
    pair.accessToken =
      ⟨"RS256", mkAccessClaims s now tok.claims.userID tok.claims.role aj,
        s.privateKey⟩ ∧
    pair.refreshToken =
      ⟨"RS256", mkRefreshClaims s now tok.claims.userID tok.claims.role
        tok.claims.tokenFamily rj, s.privateKey⟩ := by
  unfold RefreshTokens at h
  cases hv : ValidateToken s now tok with
  | error e => rw [hv] at h; exact absurd h (by simp)
  | ok c =>
    have hc := validateToken_ok_claims s now tok c hv
    subst hc
    rw [hv] at h; dsimp only at h
    by_cases ht : tok.claims.tokenType ≠ TokenTypeRefresh
    · rw [if_pos ht] at h; exact absurd h (by simp)
    · rw [if_neg ht] at h
      cases hb : IsTokenBlacklisted f st now tok.claims.jti with
      | error e => rw [hb] at h; exact absurd h (by simp)
      | ok b =>
        rw [hb] at h
        cases b with
        | true => exact absurd h (by simp)
        | false =>
          dsimp only at h
          cases hg : GetTokenFamily f st now tok.claims.userID tok.claims.tokenFamily with
          | error e => rw [hg] at h; exact absurd h (by simp)
          | ok cur =>
            rw [hg] at h; dsimp only at h
            by_cases hr : cur ≠ "" ∧ cur ≠ tok.claims.jti
            · rw [if_pos hr] at h
              cases hrv : RevokeAllUserSessions f st tok.claims.userID with
              | error e => rw [hrv] at h; exact absurd h (by simp)
              | ok st1 => rw [hrv] at h; exact absurd h (by simp)
            · rw [if_neg hr] at h
              cases hbk : BlacklistToken f st now tok.claims.jti
                  ((tok.claims.expiresAt.getD now) - now) with
              | error e => rw [hbk] at h; exact absurd h (by simp)
              | ok st1 =>
                rw [hbk] at h; dsimp only at h
                obtain ⟨h1, h2⟩ := generate_ok_inv s f st1 now tok.claims.userID
                  tok.claims.role tok.claims.tokenFamily aj rj pair st' h
                exact ⟨not_not.mp ht, h1, h2⟩

/-- The two token-type tags are distinct. -/
lemma accessNeRefresh : TokenTypeAccess ≠ TokenTypeRefresh := by decide

/-- C8: every token minted by the manager satisfies the family
invariant: an access token (token_type = access) never carries a
token_family claim, and a refresh token (token_type = refresh) always
carries a non-empty token_family claim. -/
theorem C8_access_no_family_refresh_has_family (s : JWTService)
    (t : SignedToken) (h : Minted s t) :
    (t.claims.tokenType = TokenTypeAccess → t.claims.tokenFamily = "") ∧
    (t.claims.tokenType = TokenTypeRefresh → t.claims.tokenFamily ≠ "") := by
  induction h with
  | issue_access f st st' now u r fam aj rj pair hfam hgen =>
    unfold GenerateTokenPair at hgen
    obtain ⟨h1, -⟩ := generate_ok_inv _ _ _ _ _ _ _ _ _ _ _ hgen
    rw [h1]
    exact ⟨fun _ => rfl, fun hh => absurd hh accessNeRefresh⟩
  | issue_refresh f st st' now u r fam aj rj pair hfam hgen =>
    unfold GenerateTokenPair at hgen
    obtain ⟨-, h2⟩ := generate_ok_inv _ _ _ _ _ _ _ _ _ _ _ hgen
    rw [h2]
    exact ⟨fun hh => absurd hh (Ne.symm accessNeRefresh), fun _ => hfam⟩
  | refresh_access f st st' now tok aj rj pair htok href ih =>
    obtain ⟨-, h1, -⟩ := refresh_ok_inv _ _ _ _ _ _ _ _ _ href
    rw [h1]
    exact ⟨fun _ => rfl, fun hh => absurd hh accessNeRefresh⟩
  | refresh_refresh f st st' now tok aj rj pair htok href ih =>
    obtain ⟨htype, -, h2⟩ := refresh_ok_inv _ _ _ _ _ _ _ _ _ href
    rw [h2]
    exact ⟨fun hh => absurd hh (Ne.symm accessNeRefresh), fun _ => ih.2 htype⟩

/-- Witness for C8 at a concrete issuance. -/
theorem C8_witness : pairEx.refreshToken.claims.tokenFamily ≠ "" :=
  (C8_access_no_family_refresh_has_family svcEx pairEx.refreshToken
    (Minted.issue_refresh noFaults stE stEx 0 "u" "user" "f1" "a1" "r1" pairEx
      (by decide) rfl)).2 rfl

/-- C9: BlacklistToken with a non-positive ttl is a successful no-op
that records nothing; with a positive ttl it records the JTI so that
IsTokenBlacklisted reports true throughout the following ttl. -/
theorem C9_blacklist_respects_ttl (st : Store) (now : Int) (jti : String)
    (ttl : Int) :
    (ttl ≤ 0 → BlacklistToken noFaults st now jti ttl = .ok st) ∧
    (0 < ttl → ∃ st', BlacklistToken noFaults st now jti ttl = .ok st' ∧
      ∀ t : Int, now ≤ t → t < now + ttl →
        IsTokenBlacklisted noFaults st' t jti = .ok true) := by
  constructor
  · intro h
    simp [BlacklistToken, noFaults, h]
  · intro h
    refine ⟨{ st with blacklist := alistSet st.blacklist jti (now + ttl) }, ?_, ?_⟩
    · simp [BlacklistToken, noFaults, show ¬ ttl ≤ 0 by omega]
    · intro t h1 h2
      simp [IsTokenBlacklisted, noFaults, Store.blLive, alistGet_set_self, h2]

/-- Witness for C9 at concrete TTLs. -/
theorem C9_witness :
    BlacklistToken noFaults stE 0 "j" (-5) = .ok stE ∧
    ∃ st', BlacklistToken noFaults stE 0 "j" 5 = .ok st' ∧
      IsTokenBlacklisted noFaults st' 3 "j" = .ok true := by
  refine ⟨(C9_blacklist_respects_ttl stE 0 "j" (-5)).1 (by decide), ?_⟩
  obtain ⟨st', h1, h2⟩ := (C9_blacklist_respects_ttl stE 0 "j" 5).2 (by decide)
  exact ⟨st', h1, h2 3 (by decide) (by decide)⟩

/-- C2: a Refresh call that passes verification, the type check, and
the blacklist check, and finds a non-empty stored family pointer
different from the presented JTI, revokes all the user's sessions and
fails with TokenReuseDetected, minting no pair. -/
theorem C2_reuse_revokes_and_fails (s : JWTService) (st : Store) (now : Int)
    (tok : SignedToken) (aj rj : String) (claims : Claims) (cur : String)
    (hval : ValidateToken s now tok = .ok claims)
    (htype : claims.tokenType = TokenTypeRefresh)
    (hbl : st.blLive now claims.jti = false)
    (hcur : st.famGet now claims.userID claims.tokenFamily = cur)
    (hne : cur ≠ "") (hja : cur ≠ claims.jti) :
    RefreshTokens s noFaults st now tok aj rj =
      (.error .tokenReuseDetected, revokeAllPure st claims.userID) := by
  obtain ⟨st', h1, h2⟩ := refreshTokens_reuse s noFaults st now tok aj rj claims
    cur hval htype rfl hbl rfl hcur hne hja rfl
  rw [revokeAll_noFaults] at h1
  injection h1 with h1
  rw [← h1] at h2
  exact h2

/-- Witness for C2 at a concrete replayed token. -/
theorem C2_witness :
    RefreshTokens svcEx noFaults stC2 10 tokC2 "a2" "r2" =
      (.error .tokenReuseDetected, revokeAllPure stC2 "u") :=
  C2_reuse_revokes_and_fails svcEx stC2 10 tokC2 "a2" "r2"
    (mkRefreshClaims svcEx 0 "u" "user" "f1" "r1") "r0" (by decide) (by decide)
    (by decide) (by decide) (by decide) (by decide)

lemma mintStore_blacklist (s : JWTService) (st : Store) (now : Int)
    (u fam rj : String) : (mintStore s st now u fam rj).blacklist = st.blacklist :=
  rfl

lemma blacklistUpd_families (st : Store) (now : Int) (jti : String) (ttl : Int) :
    (blacklistUpd st now jti ttl).families = st.families := by
  unfold blacklistUpd; split <;> rfl

lemma blacklistUpd_sessions (st : Store) (now : Int) (jti : String) (ttl : Int) :
    (blacklistUpd st now jti ttl).sessions = st.sessions := by
  unfold blacklistUpd; split <;> rfl

lemma blacklistUpd_blacklist_pos (st : Store) (now : Int) (jti : String)
    (ttl : Int) (h : 0 < ttl) :
    (blacklistUpd st now jti ttl).blacklist = alistSet st.blacklist jti (now + ttl) := by
  unfold blacklistUpd
  rw [if_neg (by omega)]

/-- C6 counterexample: at now = exp + leeway — inside the closed
interval [iat − leeway, exp + leeway] — with matching issuer and
audience, Verify rejects the token Sign produced (the upper endpoint is
excluded: the library requires now < exp + leeway strictly). -/
theorem C6_counterexample :
    signToken svcEx false clC6 = .ok tokC6 ∧
    clC6.issuedAt = some 0 ∧ clC6.expiresAt = some 900 ∧
    clC6.issuer = svcEx.issuer ∧ clC6.audience.contains svcEx.audience = true ∧
    (0 : Int) - leeway ≤ 930 ∧ (930 : Int) ≤ 900 + leeway ∧
    ValidateToken svcEx 930 tokC6 ≠ .ok clC6 := by decide

/-- C6 amended: for any claims signed by Sign, Verify returns an equal
claim set, provided now lies in the half-open window
[iat − leeway, exp + leeway), the claims carry an expiry and issued-at,
any embedded not-before passes its leeway check (manager-minted claims
set nbf = iat, so this follows from the lower bound), the configured
public key matches the signing key, and issuer and audience match. -/
theorem C6_sign_verify_roundtrip (s : JWTService) (c : Claims)
    (now e i : Int) (tok : SignedToken)
    (hkey : s.publicKey = s.privateKey)
    (hsig : signToken s false c = .ok tok)
    (hexp : c.expiresAt = some e) (hiat : c.issuedAt = some i)
    (hiss : c.issuer = s.issuer) (haud : c.audience.contains s.audience = true)
    (hlo : i - leeway ≤ now) (hhi : now < e + leeway)
    (hnbf : nbfOk c now = true) :
    ValidateToken s now tok = .ok c := by
  have htok : tok = ⟨"RS256", c, s.privateKey⟩ := by
    simp only [signToken, if_neg Bool.false_ne_true] at hsig
    injection hsig with h
    exact h.symm
  rw [htok]
  exact validateToken_ok_of s now c e i hkey hexp hiat hiss haud hlo hhi hnbf

/-- Witness for C6 just inside the window (now = exp + leeway − 1). -/
theorem C6_witness : ValidateToken svcEx 929 tokC6 = .ok clC6 :=
  C6_sign_verify_roundtrip svcEx clC6 929 900 0 tokC6 rfl rfl rfl rfl rfl
    (by decide) (by decide) (by decide) (by decide)

/-- C4: a successful Refresh of a valid, non-blacklisted refresh token
whose JTI matches the family's current pointer returns a pair in the
same family with the freshly drawn refresh JTI, blacklists the presented
JTI until its embedded expiry, sets the new refresh JTI as the family's
current pointer, and re-tracks the session. -/
theorem C4_rotation_effects (s : JWTService) (st : Store) (now : Int)
    (tok : SignedToken) (aj rj : String) (claims : Claims) (e : Int)
    (hval : ValidateToken s now tok = .ok claims)
    (htype : claims.tokenType = TokenTypeRefresh)
    (hbl : st.blLive now claims.jti = false)
    (hcur : st.famGet now claims.userID claims.tokenFamily = claims.jti)
    (hexp : claims.expiresAt = some e)
    (hfresh : rj ≠ claims.jti) :
    ∃ pair st',
      RefreshTokens s noFaults st now tok aj rj = (.ok pair, st') ∧
      pair.tokenFamily = claims.tokenFamily ∧
      pair.refreshToken.claims.tokenFamily = claims.tokenFamily ∧
      pair.refreshJTI = rj ∧ pair.refreshJTI ≠ claims.jti ∧
      (∀ t : Int, now ≤ t → t < e →
        IsTokenBlacklisted noFaults st' t claims.jti = .ok true) ∧
      alistGet st'.families (claims.userID, claims.tokenFamily) =
        some (rj, now + s.refreshTokenTTL) ∧
      (∃ z, alistGet st'.sessions claims.userID = some z ∧
        alistGet z claims.tokenFamily = some (now + s.refreshTokenTTL)) := by
  have hrot := refreshTokens_rotate s st now tok aj rj claims hval htype hbl hcur
  rw [hexp] at hrot
  simp only [Option.getD_some] at hrot
  refine ⟨_, _, hrot, rfl, rfl, rfl, hfresh, ?_, ?_, ?_⟩
  · intro t h1 h2
    have hpos : 0 < e - now := by omega
    simp [IsTokenBlacklisted, noFaults, Store.blLive, mintStore_blacklist,
      blacklistUpd_blacklist_pos st now claims.jti (e - now) hpos,
      alistGet_set_self]
    omega
  · simp only [mintStore, alistGet_set_self]
  · refine ⟨alistSet
        ((alistGet (blacklistUpd st now claims.jti (e - now)).sessions
          claims.userID).getD [])
        claims.tokenFamily (now + s.refreshTokenTTL), ?_,
      alistGet_set_self _ _ _⟩
    simp only [mintStore]
    exact alistGet_set_self _ _ _

/-- Witness for C4 at a concrete rotation on the post-issuance store. -/
theorem C4_witness :
    ∃ pair st',
      RefreshTokens svcEx noFaults stEx 10 tokP1 "a2" "r2" = (.ok pair, st') ∧
      pair.tokenFamily = "f1" ∧
      pair.refreshToken.claims.tokenFamily = "f1" ∧
      pair.refreshJTI = "r2" ∧ pair.refreshJTI ≠ "r1" ∧
      (∀ t : Int, 10 ≤ t → t < 604800 →
        IsTokenBlacklisted noFaults st' t "r1" = .ok true) ∧
      alistGet st'.families ("u", "f1") =
        some ("r2", 10 + svcEx.refreshTokenTTL) ∧
      (∃ z, alistGet st'.sessions "u" = some z ∧
        alistGet z "f1" = some (10 + svcEx.refreshTokenTTL)) :=
  C4_rotation_effects svcEx stEx 10 tokP1 "a2" "r2"
    (mkRefreshClaims svcEx 0 "u" "user" "f1" "r1") 604800
    (by decide) rfl (by decide) (by decide) (by decide) (by decide)

lemma bool_ne_true (b : Bool) (h : ¬ b = true) : b = false := by
  cases b
  · rfl
  · exact absurd rfl h

lemma revokeAll_delFails (f : Faults) (st : Store) (user : String)
    (hz : f.zrangeFails = false) (hd : f.delFails = true) :
    RevokeAllUserSessions f st user = .ok st := by
  unfold RevokeAllUserSessions
  rw [if_neg (by simp [hz])]
  simp [hd]

/-- C5: when Refresh detects reuse, the TokenReuseDetected error is
returned to the caller even when the cleanup deletions performed by
RevokeAll fail with a store error (the Del results are discarded in the
source, so the keys are simply left in place). -/
theorem C5_reuse_error_survives_cleanup_failure (s : JWTService) (f : Faults)
    (st : Store) (now : Int) (tok : SignedToken) (aj rj : String)
    (claims : Claims) (cur : String)
    (hval : ValidateToken s now tok = .ok claims)
    (htype : claims.tokenType = TokenTypeRefresh)
    (hfb : f.isBlacklistedFails = false)
    (hbl : st.blLive now claims.jti = false)
    (hfg : f.getFamilyFails = false)
    (hcur : st.famGet now claims.userID claims.tokenFamily = cur)
    (hne : cur ≠ "") (hja : cur ≠ claims.jti)
    (hz : f.zrangeFails = false) (hd : f.delFails = true) :
    RefreshTokens s f st now tok aj rj = (.error .tokenReuseDetected, st) := by
  obtain ⟨st', h1, h2⟩ := refreshTokens_reuse s f st now tok aj rj claims cur
    hval htype hfb hbl hfg hcur hne hja hz
  rw [revokeAll_delFails f st claims.userID hz hd] at h1
  injection h1 with h1
  rw [← h1] at h2
  exact h2

/-- Witness for C5: the concrete replay of C2 still reports reuse when
the cleanup deletions fail. -/
theorem C5_witness :
    RefreshTokens svcEx faultsDel stC2 10 tokC2 "a2" "r2" =
      (.error .tokenReuseDetected, stC2) :=
  C5_reuse_error_survives_cleanup_failure svcEx faultsDel stC2 10 tokC2
    "a2" "r2" (mkRefreshClaims svcEx 0 "u" "user" "f1" "r1") "r0"
    (by decide) rfl rfl (by decide) rfl (by decide) (by decide) (by decide)
    rfl rfl

/-- RefreshTokens reduced past the validation, type, blacklist and
pointer checks of a token that is current for its family: what remains
is the blacklisting of the presented JTI followed by the mint. -/
lemma refresh_past_checks (s : JWTService) (f : Faults) (st : Store)
    (now : Int) (tok : SignedToken) (aj rj : String) (claims : Claims)
    (hval : ValidateToken s now tok = .ok claims)
    (htype : claims.tokenType = TokenTypeRefresh)
    (hfb : f.isBlacklistedFails = false)
    (hbl : st.blLive now claims.jti = false)
    (hfg : f.getFamilyFails = false)
    (hcur : st.famGet now claims.userID claims.tokenFamily = claims.jti) :
    RefreshTokens s f st now tok aj rj =
      match BlacklistToken f st now claims.jti
          ((claims.expiresAt.getD now) - now) with
      | .error e => (.error (.store e), st)
      | .ok st1 => generateTokenPairWithFamily s f st1 now claims.userID
          claims.role claims.tokenFamily aj rj := by
  unfold RefreshTokens
  rw [hval]; dsimp only
  rw [if_neg (by simp [htype])]
  rw [show IsTokenBlacklisted f st now claims.jti = .ok false by
    simp [IsTokenBlacklisted, hfb, hbl]]
  dsimp only
  rw [show GetTokenFamily f st now claims.userID claims.tokenFamily
      = .ok claims.jti by simp [GetTokenFamily, hfg, hcur]]
  dsimp only
  rw [if_neg (by simp)]

/-- RefreshTokens immediately rejects a valid refresh token whose JTI is
live on the blacklist, leaving the store untouched. -/
lemma refresh_blacklisted (s : JWTService) (st : Store) (now : Int)
    (tok : SignedToken) (aj rj : String) (claims : Claims)
    (hval : ValidateToken s now tok = .ok claims)
    (htype : claims.tokenType = TokenTypeRefresh)
    (hbl : st.blLive now claims.jti = true) :
    RefreshTokens s noFaults st now tok aj rj = (.error .tokenRevoked, st) := by
  unfold RefreshTokens
  rw [hval]; dsimp only
  rw [if_neg (by simp [htype])]
  rw [show IsTokenBlacklisted noFaults st now claims.jti = .ok true by
    simp [IsTokenBlacklisted, noFaults, hbl]]

/-- C10: Refresh blacklists the presented JTI before signing the new
pair and writing the family pointer and session, so a signing failure or
a failing subsequent store write aborts the call with an error while the
presented JTI stays blacklisted; a fault-free retry with the same token
then fails as revoked even though no pair was ever returned. -/
theorem C10_refresh_not_atomic_on_failure (s : JWTService) (f : Faults)
    (st : Store) (now t2 : Int) (tok : SignedToken) (aj rj aj2 rj2 : String)
    (claims : Claims) (e : Int)
    (hval : ValidateToken s now tok = .ok claims)
    (hval2 : ValidateToken s t2 tok = .ok claims)
    (htype : claims.tokenType = TokenTypeRefresh)
    (hfb : f.isBlacklistedFails = false)
    (hbl : st.blLive now claims.jti = false)
    (hfg : f.getFamilyFails = false)
    (hcur : st.famGet now claims.userID claims.tokenFamily = claims.jti)
    (hfbl : f.blacklistFails = false)
    (hexp : claims.expiresAt = some e)
    (hnow : now < e) (_ht2a : now ≤ t2) (ht2b : t2 < e)
    (hfail : f.signAccessFails = true ∨ f.signRefreshFails = true ∨
      f.setFamilyFails = true ∨ f.trackFails = true) :
    ∃ err st', RefreshTokens s f st now tok aj rj = (.error err, st') ∧
      st'.blLive t2 claims.jti = true ∧
      RefreshTokens s noFaults st' t2 tok aj2 rj2 =
        (.error .tokenRevoked, st') := by
  have hred := refresh_past_checks s f st now tok aj rj claims hval htype hfb
    hbl hfg hcur
  rw [hexp] at hred
  simp only [Option.getD_some] at hred
  have hbk : BlacklistToken f st now claims.jti (e - now) =
      .ok { st with blacklist := alistSet st.blacklist claims.jti (now + (e - now)) } := by
    simp [BlacklistToken, hfbl, show ¬ e - now ≤ 0 by omega]
  rw [hbk] at hred
  dsimp only at hred
  set stB : Store :=
    { st with blacklist := alistSet st.blacklist claims.jti (now + (e - now)) }
    with hstB
  have hlive : ∀ stX : Store, stX.blacklist = stB.blacklist →
      stX.blLive t2 claims.jti = true := by
    intro stX hX
    simp [Store.blLive, hX, hstB, alistGet_set_self]
    omega
  have hretry : ∀ stX : Store, stX.blLive t2 claims.jti = true →
      RefreshTokens s noFaults stX t2 tok aj2 rj2 = (.error .tokenRevoked, stX) :=
    fun stX hX => refresh_blacklisted s stX t2 tok aj2 rj2 claims hval2 htype hX
  by_cases hA : f.signAccessFails = true
  · have hgen : generateTokenPairWithFamily s f stB now claims.userID
        claims.role claims.tokenFamily aj rj = (.error .signFailed, stB) := by
      simp [generateTokenPairWithFamily, signToken, hA]
    rw [hgen] at hred
    have h2 := hlive stB rfl
    exact ⟨.signFailed, stB, hred, h2, hretry stB h2⟩
  · have hA' := bool_ne_true _ hA
    by_cases hB : f.signRefreshFails = true
    · have hgen : generateTokenPairWithFamily s f stB now claims.userID
          claims.role claims.tokenFamily aj rj = (.error .signFailed, stB) := by
        simp [generateTokenPairWithFamily, signToken, hA', hB]
      rw [hgen] at hred
      have h2 := hlive stB rfl
      exact ⟨.signFailed, stB, hred, h2, hretry stB h2⟩
    · have hB' := bool_ne_true _ hB
      by_cases hC : f.setFamilyFails = true
      · have hgen : generateTokenPairWithFamily s f stB now claims.userID
            claims.role claims.tokenFamily aj rj =
            (.error (.store .err), stB) := by
          simp [generateTokenPairWithFamily, signToken, SetTokenFamily,
            hA', hB', hC]
        rw [hgen] at hred
        have h2 := hlive stB rfl
        exact ⟨.store .err, stB, hred, h2, hretry stB h2⟩
      · have hC' := bool_ne_true _ hC
        have hD : f.trackFails = true := by
          rcases hfail with h | h | h | h
          · exact absurd h hA
          · exact absurd h hB
          · exact absurd h hC
          · exact h
        have hgen : generateTokenPairWithFamily s f stB now claims.userID
            claims.role claims.tokenFamily aj rj =
            (.error (.store .err), { stB with
              families := (alistSet stB.families
                (claims.userID, claims.tokenFamily)
                (rj, now + s.refreshTokenTTL)) }) := by
          simp [generateTokenPairWithFamily, signToken, SetTokenFamily,
            TrackUserSession, hA', hB', hC', hD]
        rw [hgen] at hred
        have h2 := hlive { stB with
            families := (alistSet stB.families
              (claims.userID, claims.tokenFamily)
              (rj, now + s.refreshTokenTTL)) } rfl
        exact ⟨.store .err, _, hred, h2, hretry _ h2⟩

/-- Witness for C10: a concrete rotation whose session-tracking write
fails, followed by a fault-free retry. -/
theorem C10_witness :
    ∃ err st',
      RefreshTokens svcEx faultsTrack stEx 10 tokP1 "a2" "r2" =
        (.error err, st') ∧
      st'.blLive 20 "r1" = true ∧
      RefreshTokens svcEx noFaults st' 20 tokP1 "a3" "r3" =
        (.error .tokenRevoked, st') :=
  C10_refresh_not_atomic_on_failure svcEx faultsTrack stEx 10 20 tokP1
    "a2" "r2" "a3" "r3" (mkRefreshClaims svcEx 0 "u" "user" "f1" "r1") 604800
    (by decide) (by decide) rfl rfl (by decide) rfl (by decide) rfl rfl
    (by decide) (by decide) (by decide) (Or.inr (Or.inr (Or.inr rfl)))

/-- C7: after an issuance, Logout with the pair's access JTI and access
expiry but no refresh token makes ValidateAccess fail with TokenRevoked,
while a Refresh presenting the pair's refresh token still succeeds, and
the family pointers and session index are untouched by Logout. -/
theorem C7_logout_scoping (s : JWTService) (st0 st1 : Store) (t0 t1 : Int)
    (u r fam aj rj aj2 rj2 : String) (P : TokenPair)
    (hkey : s.publicKey = s.privateKey)
    (hiss : GenerateTokenPair s noFaults st0 t0 u r fam aj rj = (.ok P, st1))
    (ht01 : t0 ≤ t1)
    (hacc : t1 < t0 + s.accessTokenTTL)
    (href : t1 < t0 + s.refreshTokenTTL)
    (hne : rj ≠ aj)
    (hbl0 : st0.blLive t1 rj = false) :
    ∃ st2,
      Logout s noFaults st1 t1 P.accessJTI (t0 + s.accessTokenTTL) none =
        (.ok (), st2) ∧
      ValidateAccessToken s noFaults st2 t1 P.accessToken =
        .error .tokenRevoked ∧
      (RefreshTokens s noFaults st2 t1 P.refreshToken aj2 rj2).1.isOk = true ∧
      st2.families = st1.families ∧ st2.sessions = st1.sessions := by
  unfold GenerateTokenPair at hiss
  rw [generate_noFaults] at hiss
  injection hiss with h1 h2
  injection h1 with h1
  subst h1
  subst h2
  refine ⟨blacklistUpd (mintStore s st0 t0 u fam rj) t1 aj
    (t0 + s.accessTokenTTL - t1), ?_, ?_, ?_, ?_, ?_⟩
  · dsimp only [mintedPair]
    unfold Logout
    rw [blacklistToken_noFaults]
  · have hvA : ValidateToken s t1
        (⟨"RS256", mkAccessClaims s t0 u r aj, s.privateKey⟩ : SignedToken) =
        .ok (mkAccessClaims s t0 u r aj) :=
      validateToken_ok_of s t1 _ (t0 + s.accessTokenTTL) t0 hkey rfl rfl rfl
        (by simp [mkAccessClaims]) (by simp only [leeway]; omega)
        (by simp only [leeway]; omega)
        (by simp [nbfOk, mkAccessClaims, leeway]; omega)
    dsimp only [mintedPair]
    unfold ValidateAccessToken
    rw [hvA]
    dsimp only
    rw [if_neg (by simp [mkAccessClaims, TokenTypeAccess])]
    rw [show IsTokenBlacklisted noFaults
        (blacklistUpd (mintStore s st0 t0 u fam rj) t1 aj
          (t0 + s.accessTokenTTL - t1)) t1 (mkAccessClaims s t0 u r aj).jti =
        .ok true by
      simp [IsTokenBlacklisted, noFaults, Store.blLive, mkAccessClaims,
        blacklistUpd_blacklist_pos _ _ _ _ (show (0:Int) < t0 + s.accessTokenTTL - t1 by omega),
        alistGet_set_self]
      omega]
  · have hvR : ValidateToken s t1
        (⟨"RS256", mkRefreshClaims s t0 u r fam rj, s.privateKey⟩ : SignedToken) =
        .ok (mkRefreshClaims s t0 u r fam rj) :=
      validateToken_ok_of s t1 _ (t0 + s.refreshTokenTTL) t0 hkey rfl rfl rfl
        (by simp [mkRefreshClaims]) (by simp only [leeway]; omega)
        (by simp only [leeway]; omega)
        (by simp [nbfOk, mkRefreshClaims, leeway]; omega)
    have hblR : (blacklistUpd (mintStore s st0 t0 u fam rj) t1 aj
        (t0 + s.accessTokenTTL - t1)).blLive t1 rj = false := by
      have hb : (blacklistUpd (mintStore s st0 t0 u fam rj) t1 aj
          (t0 + s.accessTokenTTL - t1)).blacklist =
          alistSet st0.blacklist aj (t1 + (t0 + s.accessTokenTTL - t1)) := by
        rw [blacklistUpd_blacklist_pos _ _ _ _
          (show (0:Int) < t0 + s.accessTokenTTL - t1 by omega)]
        rfl
      unfold Store.blLive at hbl0 ⊢
      rw [hb, alistGet_set_ne _ _ _ _ (Ne.symm hne)]
      exact hbl0
    have hcurR : (blacklistUpd (mintStore s st0 t0 u fam rj) t1 aj
        (t0 + s.accessTokenTTL - t1)).famGet t1 u fam = rj := by
      have hf : (blacklistUpd (mintStore s st0 t0 u fam rj) t1 aj
          (t0 + s.accessTokenTTL - t1)).families =
          alistSet st0.families (u, fam) (rj, t0 + s.refreshTokenTTL) := by
        rw [blacklistUpd_families]
        rfl
      unfold Store.famGet
      rw [hf, alistGet_set_self]
      simp [href]
    have hrot := refreshTokens_rotate s
      (blacklistUpd (mintStore s st0 t0 u fam rj) t1 aj
        (t0 + s.accessTokenTTL - t1)) t1
      (⟨"RS256", mkRefreshClaims s t0 u r fam rj, s.privateKey⟩ : SignedToken)
      aj2 rj2 (mkRefreshClaims s t0 u r fam rj) hvR rfl hblR hcurR
    dsimp only [mintedPair]
    rw [hrot]
    rfl
  · rw [blacklistUpd_families]
  · rw [blacklistUpd_sessions]

/-- Witness for C7 at a concrete issuance and logout. -/
theorem C7_witness :
    ∃ st2,
      Logout svcEx noFaults stEx 10 pairEx.accessJTI (0 + svcEx.accessTokenTTL)
        none = (.ok (), st2) ∧
      ValidateAccessToken svcEx noFaults st2 10 pairEx.accessToken =
        .error .tokenRevoked ∧
      (RefreshTokens svcEx noFaults st2 10 pairEx.refreshToken "a2" "r2").1.isOk
        = true ∧
      st2.families = stEx.families ∧ st2.sessions = stEx.sessions :=
  C7_logout_scoping svcEx stE stEx 0 10 "u" "user" "f1" "a1" "r1" "a2" "r2"
    pairEx rfl rfl (by decide) (by decide) (by decide) (by decide) (by decide)

/-- C1 counterexample: in the issue-then-refresh scenario the second
Refresh of P1's refresh token fails with the blacklist error
TokenRevoked, not TokenReuseDetected, and the subsequent Refresh of P2's
refresh token succeeds — RevokeAll was never triggered. -/
theorem C1_counterexample :
    c1Ref1.1.isOk = true ∧
    (RefreshTokens svcEx noFaults c1Ref1.2 20 tokP1 "a3" "r3").1 =
      .error .tokenRevoked ∧
    (RefreshTokens svcEx noFaults c1Ref1.2 20 tokP1 "a3" "r3").1 ≠
      .error .tokenReuseDetected ∧
    (RefreshTokens svcEx noFaults
      (RefreshTokens svcEx noFaults c1Ref1.2 20 tokP1 "a3" "r3").2
      30 tokP2 "a4" "r4").1.isOk = true := by decide

/-- C1 amended: after Issue yields P1 and Refresh(P1.refresh) succeeds
yielding P2, a second Refresh with P1's refresh token fails with
TokenRevoked — its JTI was blacklisted by the successful rotation, so
the reuse branch is never reached — and leaves the store unchanged
(RevokeAll is not triggered); a subsequent Refresh with P2's refresh
token therefore still succeeds. -/
theorem C1_replay_hits_blacklist_p2_survives (s : JWTService)
    (st0 st1 st2 : Store) (t0 t1 t2 t3 : Int)
    (u r fam a1 r1 a2 r2 a3 r3 a4 r4 : String) (P1 P2 : TokenPair)
    (hkey : s.publicKey = s.privateKey)
    (hiss : GenerateTokenPair s noFaults st0 t0 u r fam a1 r1 = (.ok P1, st1))
    (href1 : RefreshTokens s noFaults st1 t1 P1.refreshToken a2 r2 =
      (.ok P2, st2))
    (ht01 : t0 ≤ t1) (ht12 : t1 ≤ t2) (ht13 : t1 ≤ t3)
    (h1e : t1 < t0 + s.refreshTokenTTL)
    (h2e : t2 < t0 + s.refreshTokenTTL)
    (h3e : t3 < t1 + s.refreshTokenTTL)
    (hne12 : r1 ≠ r2)
    (hbl1 : st0.blLive t1 r1 = false)
    (hbl2 : st0.blLive t3 r2 = false) :
    RefreshTokens s noFaults st2 t2 P1.refreshToken a3 r3 =
      (.error .tokenRevoked, st2) ∧
    (RefreshTokens s noFaults st2 t3 P2.refreshToken a4 r4).1.isOk = true := by
  unfold GenerateTokenPair at hiss
  rw [generate_noFaults] at hiss
  injection hiss with h1 h2
  injection h1 with h1
  subst h1
  subst h2
  have hv1 : ValidateToken s t1
      (⟨"RS256", mkRefreshClaims s t0 u r fam r1, s.privateKey⟩ : SignedToken) =
      .ok (mkRefreshClaims s t0 u r fam r1) :=
    validateToken_ok_of s t1 _ (t0 + s.refreshTokenTTL) t0 hkey rfl rfl rfl
      (by simp [mkRefreshClaims]) (by simp only [leeway]; omega)
      (by simp only [leeway]; omega)
      (by simp [nbfOk, mkRefreshClaims, leeway]; omega)
  have hb1 : (mintStore s st0 t0 u fam r1).blLive t1 r1 = false := by
    unfold Store.blLive at hbl1 ⊢
    rw [mintStore_blacklist]
    exact hbl1
  have hc1 : (mintStore s st0 t0 u fam r1).famGet t1 u fam = r1 := by
    unfold Store.famGet
    rw [show (mintStore s st0 t0 u fam r1).families =
      alistSet st0.families (u, fam) (r1, t0 + s.refreshTokenTTL) from rfl]
    rw [alistGet_set_self]
    simp [h1e]
  have hrot1 := refreshTokens_rotate s (mintStore s st0 t0 u fam r1) t1
    (⟨"RS256", mkRefreshClaims s t0 u r fam r1, s.privateKey⟩ : SignedToken)
    a2 r2 (mkRefreshClaims s t0 u r fam r1) hv1 rfl hb1 hc1
  dsimp only [mintedPair] at href1
  rw [hrot1] at href1
  injection href1 with h3 h4
  injection h3 with h3
  subst h3
  subst h4
  have hv2 : ValidateToken s t2
      (⟨"RS256", mkRefreshClaims s t0 u r fam r1, s.privateKey⟩ : SignedToken) =
      .ok (mkRefreshClaims s t0 u r fam r1) :=
    validateToken_ok_of s t2 _ (t0 + s.refreshTokenTTL) t0 hkey rfl rfl rfl
      (by simp [mkRefreshClaims]) (by simp only [leeway]; omega)
      (by simp only [leeway]; omega)
      (by simp [nbfOk, mkRefreshClaims, leeway]; omega)
  have hbLater : (mintStore s
      (blacklistUpd (mintStore s st0 t0 u fam r1) t1 r1
        (t0 + s.refreshTokenTTL - t1)) t1 u fam r2).blLive t2 r1 = true := by
    unfold Store.blLive
    rw [show (mintStore s
        (blacklistUpd (mintStore s st0 t0 u fam r1) t1 r1
          (t0 + s.refreshTokenTTL - t1)) t1 u fam r2).blacklist =
      alistSet st0.blacklist r1 (t1 + (t0 + s.refreshTokenTTL - t1)) by
        rw [mintStore_blacklist,
          blacklistUpd_blacklist_pos _ _ _ _ (show (0:Int) < t0 + s.refreshTokenTTL - t1 by omega),
          mintStore_blacklist]]
    rw [alistGet_set_self]
    simp
    omega
  have hb2 : (mintStore s
      (blacklistUpd (mintStore s st0 t0 u fam r1) t1 r1
        (t0 + s.refreshTokenTTL - t1)) t1 u fam r2).blLive t3 r2 = false := by
    unfold Store.blLive at hbl2 ⊢
    rw [show (mintStore s
        (blacklistUpd (mintStore s st0 t0 u fam r1) t1 r1
          (t0 + s.refreshTokenTTL - t1)) t1 u fam r2).blacklist =
      alistSet st0.blacklist r1 (t1 + (t0 + s.refreshTokenTTL - t1)) by
        rw [mintStore_blacklist,
          blacklistUpd_blacklist_pos _ _ _ _ (show (0:Int) < t0 + s.refreshTokenTTL - t1 by omega),
          mintStore_blacklist]]
    rw [alistGet_set_ne _ _ _ _ hne12]
    exact hbl2
  have hc2 : (mintStore s
      (blacklistUpd (mintStore s st0 t0 u fam r1) t1 r1
        (t0 + s.refreshTokenTTL - t1)) t1 u fam r2).famGet t3 u fam = r2 := by
    unfold Store.famGet
    rw [show (mintStore s
        (blacklistUpd (mintStore s st0 t0 u fam r1) t1 r1
          (t0 + s.refreshTokenTTL - t1)) t1 u fam r2).families =
      alistSet (mintStore s st0 t0 u fam r1).families (u, fam)
        (r2, t1 + s.refreshTokenTTL) by
        rw [show (mintStore s
            (blacklistUpd (mintStore s st0 t0 u fam r1) t1 r1
              (t0 + s.refreshTokenTTL - t1)) t1 u fam r2).families =
          alistSet (blacklistUpd (mintStore s st0 t0 u fam r1) t1 r1
            (t0 + s.refreshTokenTTL - t1)).families (u, fam)
            (r2, t1 + s.refreshTokenTTL) from rfl, blacklistUpd_families]]
    rw [alistGet_set_self]
    simp [h3e]
  constructor
  · show RefreshTokens s noFaults (mintStore s
      (blacklistUpd (mintStore s st0 t0 u fam r1) t1 r1
        (t0 + s.refreshTokenTTL - t1)) t1 u fam r2) t2
      (⟨"RS256", mkRefreshClaims s t0 u r fam r1, s.privateKey⟩ : SignedToken)
      a3 r3 =
      (.error .tokenRevoked, mintStore s
        (blacklistUpd (mintStore s st0 t0 u fam r1) t1 r1
          (t0 + s.refreshTokenTTL - t1)) t1 u fam r2)
    exact refresh_blacklisted s _ t2 _ a3 r3 (mkRefreshClaims s t0 u r fam r1)
      hv2 rfl hbLater
  · have hv3 : ValidateToken s t3
        (⟨"RS256", mkRefreshClaims s t1 u r fam r2, s.privateKey⟩ : SignedToken) =
        .ok (mkRefreshClaims s t1 u r fam r2) :=
      validateToken_ok_of s t3 _ (t1 + s.refreshTokenTTL) t1 hkey rfl rfl rfl
        (by simp [mkRefreshClaims]) (by simp only [leeway]; omega)
        (by simp only [leeway]; omega)
        (by simp [nbfOk, mkRefreshClaims, leeway]; omega)
    have hrot3 := refreshTokens_rotate s (mintStore s
      (blacklistUpd (mintStore s st0 t0 u fam r1) t1 r1
        (t0 + s.refreshTokenTTL - t1)) t1 u fam r2) t3
      (⟨"RS256", mkRefreshClaims s t1 u r fam r2, s.privateKey⟩ : SignedToken)
      a4 r4 (mkRefreshClaims s t1 u r fam r2) hv3 rfl hb2 hc2
    show (RefreshTokens s noFaults (mintStore s
      (blacklistUpd (mintStore s st0 t0 u fam r1) t1 r1
        (t0 + s.refreshTokenTTL - t1)) t1 u fam r2) t3
      (⟨"RS256", mkRefreshClaims s t1 u r fam r2, s.privateKey⟩ : SignedToken)
      a4 r4).1.isOk = true
    rw [hrot3]
    rfl

/-- Witness for the amended C1 at the concrete scenario. -/
theorem C1_witness :
    RefreshTokens svcEx noFaults c1St2 20 pairEx.refreshToken "a3" "r3" =
      (.error .tokenRevoked, c1St2) ∧
    (RefreshTokens svcEx noFaults c1St2 30 c1P2.refreshToken "a4" "r4").1.isOk
      = true :=
  C1_replay_hits_blacklist_p2_survives svcEx stE stEx c1St2 0 10 20 30
    "u" "user" "f1" "a1" "r1" "a2" "r2" "a3" "r3" "a4" "r4" pairEx c1P2
    rfl rfl (by decide) (by decide) (by decide) (by decide) (by decide)
    (by decide) (by decide) (by decide) (by decide) (by decide)

/-- C3: the code does not enforce the claim.  After two pairs are issued
for user u (families f1, f2) and RevokeAllSessions(u) deletes both
family pointers and the session index, Refresh presenting either
previously issued refresh token still SUCCEEDS: the empty family pointer
skips the reuse check and the manager mints a fresh pair, resurrecting
the revoked session. -/
theorem C3_revoke_all_does_not_block_refresh :
    c3Rev.1 = .ok () ∧
    (RefreshTokens svcEx noFaults c3Rev.2 10 tokP1 "a9" "r9").1.isOk = true ∧
    (RefreshTokens svcEx noFaults c3Rev.2 10 tokS1 "b9" "s9").1.isOk = true := by
  decide

end JwtModel

